import Mathlib

/-!
Shallow embedding of the TAPS probability prediction engine
(`backend/app/services/prediction.py` and its API caller
`backend/app/api/predictions.py`).

Timestamps are modelled as absolute minutes since the Unix epoch (UTC);
hour, weekday, month and day are derived exactly as a proleptic-Gregorian
UTC datetime does.  Python float arithmetic is modelled by exact rationals.
The database is modelled as lists of parking lots and sightings; the
SQL count queries become list counts with the literal filter conditions,
including PostgreSQL's `extract('dow', ...)` convention (0 = Sunday),
which differs from Python's `datetime.weekday()` (0 = Monday).
-/

/-- A UTC instant: minutes since 1970-01-01T00:00:00Z. -/
structure Instant where
  minutes : ℤ
deriving DecidableEq, Repr

/-- Whole days since the epoch (floor). -/
def Instant.epochDays (t : Instant) : ℤ := t.minutes.fdiv 1440

/-- Python `datetime.hour`: hour of day, 0–23. -/
def Instant.hour (t : Instant) : ℕ := (t.minutes % 1440).toNat / 60

/-- Python `datetime.weekday()`: 0 = Monday … 6 = Sunday (1970-01-01 was a Thursday). -/
def Instant.weekday (t : Instant) : ℕ := ((t.epochDays + 3) % 7).toNat

/-- PostgreSQL `extract(dow from ...)`: 0 = Sunday … 6 = Saturday. -/
def Instant.pg_dow (t : Instant) : ℕ := ((t.epochDays + 4) % 7).toNat

/-- Civil (year, month, day) from days since the epoch
(standard proleptic-Gregorian conversion). -/
def civilOfDays (z0 : ℤ) : ℤ × ℕ × ℕ :=
  let z := z0 + 719468
  let era := z.fdiv 146097
  let doe := (z.fmod 146097).toNat
  let yoe := (doe - doe / 1460 + doe / 36524 - doe / 146096) / 365
  let y := (yoe : ℤ) + era * 400
  let doy := doe - (365 * yoe + yoe / 4 - yoe / 100)
  let mp := (5 * doy + 2) / 153
  let d := doy - (153 * mp + 2) / 5 + 1
  let m := if mp < 10 then mp + 3 else mp - 9
  (if m ≤ 2 then y + 1 else y, m, d)

/-- Python `datetime.month` (1–12). -/
def Instant.month (t : Instant) : ℕ := (civilOfDays t.epochDays).2.1

/-- Python `datetime.day` (1–31). -/
def Instant.day (t : Instant) : ℕ := (civilOfDays t.epochDays).2.2

/-- Days since the epoch of a civil (year, month, day)
(inverse of `civilOfDays` on valid dates). -/
def daysOfCivil (y0 : ℤ) (m d : ℕ) : ℤ :=
  let y := if m ≤ 2 then y0 - 1 else y0
  let era := y.fdiv 400
  let yoe := (y.fmod 400).toNat
  let mp := if 2 < m then m - 3 else m + 9
  let doy := (153 * mp + 2) / 5 + d - 1
  let doe := yoe * 365 + yoe / 4 - yoe / 100 + doy
  era * 146097 + (doe : ℤ) - 719468

/-- Build a concrete UTC instant from year, month, day, hour, minute. -/
def mkUTC (y : ℤ) (mo d h mi : ℕ) : Instant :=
  ⟨daysOfCivil y mo d * 1440 + (h * 60 + mi : ℕ)⟩

/-- Python `round` tie behaviour: round half to even, on an integer scale. -/
def roundHalfEvenInt (q : ℚ) : ℤ :=
  let f := ⌊q⌋
  let frac := q - (f : ℚ)
  if frac < 1 / 2 then f
  else if 1 / 2 < frac then f + 1
  else if f % 2 = 0 then f else f + 1

/-- Python `round(x, 3)`: round to 3 decimal places, ties to even. -/
def round3 (q : ℚ) : ℚ := (roundHalfEvenInt (q * 1000) : ℚ) / 1000

/-! ## Data model (`app/models`, `app/schemas/prediction.py`) -/

/-- The `ParkingLot` row: only the fields the prediction engine reads. -/
structure ParkingLot where
  id : ℤ
  name : String
  code : String
deriving DecidableEq, Repr

/-- The `TapsSighting` row: only the fields the prediction queries filter on. -/
structure TapsSighting where
  parking_lot_id : ℤ
  reported_at : Instant
deriving DecidableEq, Repr

/-- The database contents visible to the prediction service. -/
structure DB where
  parking_lots : List ParkingLot
  taps_sightings : List TapsSighting
deriving Repr

/-- The `PredictionFactors` schema. -/
structure PredictionFactors where
  time_of_day_factor : ℚ
  day_of_week_factor : ℚ
  historical_factor : ℚ
  recent_sightings_factor : ℚ
  academic_calendar_factor : ℚ
  weather_factor : Option ℚ
deriving DecidableEq, Repr

/-- The `PredictionResponse` schema. -/
structure PredictionResponse where
  parking_lot_id : ℤ
  parking_lot_name : String
  parking_lot_code : String
  probability : ℚ
  risk_level : String
  predicted_for : Instant
  factors : PredictionFactors
  confidence : ℚ
deriving DecidableEq, Repr

/-! ## Count queries

The service issues three shapes of `select(func.count(TapsSighting.id))`
queries; each becomes a count over the sighting list with the same
`where` conditions. -/

/-- Unfiltered trailing-window count:
`parking_lot_id == lot AND reported_at >= since`. -/
def count_sightings_since (db : DB) (lot : ℤ) (since : Instant) : ℕ :=
  (db.taps_sightings.filter fun s =>
    decide (s.parking_lot_id = lot ∧ since.minutes ≤ s.reported_at.minutes)).length

/-- The count in `_calculate_historical_factor`:
`parking_lot_id == lot AND reported_at >= dt - 90 days AND
extract('dow', reported_at) == dt.weekday()`.
The left side of the weekday comparison is the SQL `dow` (0 = Sunday),
the right side Python's `weekday()` (0 = Monday). -/
def count_sightings_90d_dow (db : DB) (lot : ℤ) (dt : Instant) : ℕ :=
  (db.taps_sightings.filter fun s =>
    decide (s.parking_lot_id = lot ∧
      dt.minutes - 90 * 1440 ≤ s.reported_at.minutes ∧
      s.reported_at.pg_dow = dt.weekday)).length

/-- Modelled from the spec (§4.3): the trailing-90-day count of sightings
whose weekday equals the target's weekday, "same day-of-week, not same
date" — both sides in the same weekday convention.  Used only to compare
against `count_sightings_90d_dow`, which is what the code computes. -/
def count_sightings_90d_same_weekday (db : DB) (lot : ℤ) (dt : Instant) : ℕ :=
  (db.taps_sightings.filter fun s =>
    decide (s.parking_lot_id = lot ∧
      dt.minutes - 90 * 1440 ≤ s.reported_at.minutes ∧
      s.reported_at.weekday = dt.weekday)).length

/-! ## PredictionService -/

/-- Source `PredictionService.WEIGHTS` (a dict keyed by factor name). -/
def WEIGHTS (key : String) : ℚ :=
  if key = "time_of_day" then 0.25
  else if key = "day_of_week" then 0.20
  else if key = "historical" then 0.20
  else if key = "recent_sightings" then 0.20
  else if key = "academic_calendar" then 0.15
  else 0

/-- Body of `_calculate_time_of_day_factor` after `hour = dt.hour`. -/
def time_of_day_of_hour (hour : ℕ) : ℚ :=
  if hour < 6 ∨ 22 ≤ hour then 0.05
  else if 6 ≤ hour ∧ hour < 8 then 0.2 + ((hour : ℚ) - 6) * 0.15
  else if 8 ≤ hour ∧ hour < 17 then
    if 12 ≤ hour ∧ hour < 13 then 0.7 else 0.85
  else 0.6 - ((hour : ℚ) - 17) * 0.11

/-- Source `_calculate_time_of_day_factor`. -/
def calculate_time_of_day_factor (dt : Instant) : ℚ :=
  time_of_day_of_hour dt.hour

/-- Body of `_calculate_day_of_week_factor` after `day = dt.weekday()`:
the `weekday_factors` dict lookup with default `0.5`. -/
def day_of_week_of (day : ℕ) : ℚ :=
  if day = 0 then 0.85
  else if day = 1 then 0.90
  else if day = 2 then 0.85
  else if day = 3 then 0.80
  else if day = 4 then 0.70
  else if day = 5 then 0.15
  else if day = 6 then 0.10
  else 0.5

/-- Source `_calculate_day_of_week_factor`. -/
def calculate_day_of_week_factor (dt : Instant) : ℚ :=
  day_of_week_of dt.weekday

/-- The normalisation step of `_calculate_historical_factor` applied to the
query's count.  (The source also computes `hour_start`/`hour_end` bounds
that are never used in the query; they are omitted as dead bindings.) -/
def historical_of_count (count : ℕ) : ℚ :=
  if count = 0 then 0.3 else min (0.3 + (count : ℚ) * 0.065) 0.95

/-- Source `_calculate_historical_factor`. -/
def calculate_historical_factor (db : DB) (parking_lot_id : ℤ) (dt : Instant) : ℚ :=
  historical_of_count (count_sightings_90d_dow db parking_lot_id dt)

/-- Source `_calculate_recent_sightings_factor`: 2-hour count first, short-circuit
to 0.95; otherwise the 24-hour count decides. -/
def calculate_recent_sightings_factor (db : DB) (parking_lot_id : ℤ) (dt : Instant) : ℚ :=
  let very_recent := count_sightings_since db parking_lot_id ⟨dt.minutes - 2 * 60⟩
  if 0 < very_recent then 0.95
  else
    let recent := count_sightings_since db parking_lot_id ⟨dt.minutes - 24 * 60⟩
    if recent = 0 then 0.4
    else min (0.5 + (recent : ℚ) * 0.1) 0.85

/-! ### Academic calendar -/

/-- The `ACADEMIC_CALENDAR` entries (month, day). -/
def fall_start : ℕ × ℕ := (9, 25)

def fall_end : ℕ × ℕ := (12, 13)

def winter_start : ℕ × ℕ := (1, 6)

def winter_end : ℕ × ℕ := (3, 21)

def spring_start : ℕ × ℕ := (3, 31)

def spring_end : ℕ × ℕ := (6, 13)

def fall_finals : (ℕ × ℕ) × (ℕ × ℕ) := ((12, 7), (12, 13))

def winter_finals : (ℕ × ℕ) × (ℕ × ℕ) := ((3, 15), (3, 21))

def spring_finals : (ℕ × ℕ) × (ℕ × ℕ) := ((6, 7), (6, 13))

/-- The inner `in_range` closure of `_calculate_academic_calendar_factor`,
over the month and day it captures. -/
def in_range (month day : ℕ) (s e : ℕ × ℕ) : Bool :=
  let start_m := s.1
  let start_d := s.2
  let end_m := e.1
  let end_d := e.2
  if start_m ≤ end_m then
    if month < start_m ∨ end_m < month then false
    else if month = start_m ∧ day < start_d then false
    else if month = end_m ∧ end_d < day then false
    else true
  else
    if start_m ≤ month ∨ month ≤ end_m then
      if month = start_m ∧ day < start_d then false
      else if month = end_m ∧ end_d < day then false
      else true
    else false

/-- Body of `_calculate_academic_calendar_factor` after
`month, day = dt.month, dt.day`: finals ranges first, then quarter
ranges, else the break value.  The loops over the fixed table are
unrolled in table order (first match wins). -/
def academic_calendar_of (month day : ℕ) : ℚ :=
  if in_range month day fall_finals.1 fall_finals.2 ∨
      in_range month day winter_finals.1 winter_finals.2 ∨
      in_range month day spring_finals.1 spring_finals.2 then 0.95
  else if in_range month day fall_start fall_end ∨
      in_range month day winter_start winter_end ∨
      in_range month day spring_start spring_end then 0.75
  else 0.35

/-- Source `_calculate_academic_calendar_factor`. -/
def calculate_academic_calendar_factor (dt : Instant) : ℚ :=
  academic_calendar_of dt.month dt.day

/-- Source `_get_risk_level`. -/
def get_risk_level (probability : ℚ) : String :=
  if probability < 0.3 then "LOW"
  else if probability < 0.6 then "MEDIUM"
  else "HIGH"

/-- Source `_calculate_confidence`. -/
def calculate_confidence (historical_count recent_count : ℕ) : ℚ :=
  let base : ℚ := 0.4
  let historical_contrib := min ((historical_count : ℚ) * 0.02) 0.3
  let recent_contrib := min ((recent_count : ℚ) * 0.05) 0.2
  min (base + historical_contrib + recent_contrib) 0.95

/-- Source `PredictionService.predict` with an explicit timestamp (the service
defaults a missing timestamp to the current instant before this logic
runs; both API callers pass an explicit instant).  `ValueError` becomes
the `Except.error` case. -/
def predict (db : DB) (parking_lot_id : ℤ) (timestamp : Instant) :
    Except String PredictionResponse :=
  match db.parking_lots.find? (fun l => l.id == parking_lot_id) with
  | none => .error ("Parking lot " ++ toString parking_lot_id ++ " not found")
  | some parking_lot =>
    let time_factor := calculate_time_of_day_factor timestamp
    let day_factor := calculate_day_of_week_factor timestamp
    let historical_factor := calculate_historical_factor db parking_lot_id timestamp
    let recent_factor := calculate_recent_sightings_factor db parking_lot_id timestamp
    let calendar_factor := calculate_academic_calendar_factor timestamp
    let probability :=
      time_factor * WEIGHTS ("time_of_day") +
      day_factor * WEIGHTS ("day_of_week") +
      historical_factor * WEIGHTS ("historical") +
      recent_factor * WEIGHTS ("recent_sightings") +
      calendar_factor * WEIGHTS ("academic_calendar")
    let probability := max 0 (min 1 probability)
    let historical_count := count_sightings_since db parking_lot_id ⟨timestamp.minutes - 90 * 1440⟩
    let recent_count := count_sightings_since db parking_lot_id ⟨timestamp.minutes - 24 * 60⟩
    let confidence := calculate_confidence historical_count recent_count
    .ok
      { parking_lot_id := parking_lot.id
        parking_lot_name := parking_lot.name
        parking_lot_code := parking_lot.code
        probability := round3 probability
        risk_level := get_risk_level probability
        predicted_for := timestamp
        factors :=
          { time_of_day_factor := round3 time_factor
            day_of_week_factor := round3 day_factor
            historical_factor := round3 historical_factor
            recent_sightings_factor := round3 recent_factor
            academic_calendar_factor := round3 calendar_factor
            weather_factor := none }
        confidence := round3 confidence }

/-- The `POST /predictions` handler `predict_for_time`
(`app/api/predictions.py`): `ValueError` from the service is mapped to an
HTTP 404 response; success returns the prediction unchanged. -/
def predict_for_time (db : DB) (parking_lot_id : ℤ) (timestamp : Instant) :
    Except (ℕ × String) PredictionResponse :=
  match predict db parking_lot_id timestamp with
  | .ok r => .ok r
  | .error e => .error (404, e)

/-! ## Helper lemmas -/

/-- If the lot is found, `predict` returns exactly the record the source
builds: rounded probability/factors/confidence, risk level from the
unrounded clamped probability. -/
theorem predict_eq_of_found (db : DB) (lotId : ℤ) (t : Instant) (lot : ParkingLot)
    (h : db.parking_lots.find? (fun l => l.id == lotId) = some lot) :
    predict db lotId t = .ok
      { parking_lot_id := lot.id
        parking_lot_name := lot.name
        parking_lot_code := lot.code
        probability := round3 (max 0 (min 1
          (calculate_time_of_day_factor t * WEIGHTS ("time_of_day") +
           calculate_day_of_week_factor t * WEIGHTS ("day_of_week") +
           calculate_historical_factor db lotId t * WEIGHTS ("historical") +
           calculate_recent_sightings_factor db lotId t * WEIGHTS ("recent_sightings") +
           calculate_academic_calendar_factor t * WEIGHTS ("academic_calendar"))))
        risk_level := get_risk_level (max 0 (min 1
          (calculate_time_of_day_factor t * WEIGHTS ("time_of_day") +
           calculate_day_of_week_factor t * WEIGHTS ("day_of_week") +
           calculate_historical_factor db lotId t * WEIGHTS ("historical") +
           calculate_recent_sightings_factor db lotId t * WEIGHTS ("recent_sightings") +
           calculate_academic_calendar_factor t * WEIGHTS ("academic_calendar"))))
        predicted_for := t
        factors :=
          { time_of_day_factor := round3 (calculate_time_of_day_factor t)
            day_of_week_factor := round3 (calculate_day_of_week_factor t)
            historical_factor := round3 (calculate_historical_factor db lotId t)
            recent_sightings_factor := round3 (calculate_recent_sightings_factor db lotId t)
            academic_calendar_factor := round3 (calculate_academic_calendar_factor t)
            weather_factor := none }
        confidence := round3 (calculate_confidence
          (count_sightings_since db lotId ⟨t.minutes - 90 * 1440⟩)
          (count_sightings_since db lotId ⟨t.minutes - 24 * 60⟩)) } := by
  simp only [predict, h]

theorem WEIGHTS_time_of_day : WEIGHTS ("time_of_day") = 0.25 := by rfl

theorem WEIGHTS_day_of_week : WEIGHTS ("day_of_week") = 0.20 := by rfl

theorem WEIGHTS_historical : WEIGHTS ("historical") = 0.20 := by rfl

theorem WEIGHTS_recent_sightings : WEIGHTS ("recent_sightings") = 0.20 := by rfl

theorem WEIGHTS_academic_calendar : WEIGHTS ("academic_calendar") = 0.15 := by rfl

/-- A lot with no sightings has count 0 in every trailing window. -/
theorem count_sightings_since_eq_zero (db : DB) (lot : ℤ) (since : Instant)
    (h : ∀ s ∈ db.taps_sightings, s.parking_lot_id ≠ lot) :
    count_sightings_since db lot since = 0 := by
  unfold count_sightings_since
  rw [List.length_eq_zero, List.filter_eq_nil_iff]
  intro s hs
  simp only [decide_eq_true_eq, not_and]
  exact fun hl => absurd hl (h s hs)

/-- A lot with no sightings has historical (dow-filtered) count 0. -/
theorem count_sightings_90d_dow_eq_zero (db : DB) (lot : ℤ) (dt : Instant)
    (h : ∀ s ∈ db.taps_sightings, s.parking_lot_id ≠ lot) :
    count_sightings_90d_dow db lot dt = 0 := by
  unfold count_sightings_90d_dow
  rw [List.length_eq_zero, List.filter_eq_nil_iff]
  intro s hs
  simp only [decide_eq_true_eq, not_and]
  exact fun hl => absurd hl (h s hs)

theorem time_of_day_of_hour_mem (h : ℕ) :
    0 ≤ time_of_day_of_hour h ∧ time_of_day_of_hour h ≤ 1 := by
  unfold time_of_day_of_hour
  by_cases h1 : h < 6 ∨ 22 ≤ h
  · rw [if_pos h1]; norm_num
  · rw [if_neg h1]
    push_neg at h1
    obtain ⟨h6, h22⟩ := h1
    interval_cases h <;> norm_num

theorem day_of_week_of_mem (d : ℕ) : 0 ≤ day_of_week_of d ∧ day_of_week_of d ≤ 1 := by
  unfold day_of_week_of
  split_ifs <;> norm_num

theorem historical_of_count_mem (c : ℕ) :
    0.3 ≤ historical_of_count c ∧ historical_of_count c ≤ 0.95 := by
  unfold historical_of_count
  split_ifs with hc
  · norm_num
  · constructor
    · refine le_min ?_ (by norm_num)
      have : (0 : ℚ) ≤ (c : ℚ) * 0.065 := by positivity
      linarith
    · exact min_le_right _ _

theorem recent_sightings_factor_mem (db : DB) (lot : ℤ) (dt : Instant) :
    0.4 ≤ calculate_recent_sightings_factor db lot dt ∧
      calculate_recent_sightings_factor db lot dt ≤ 0.95 := by
  simp only [calculate_recent_sightings_factor]
  split_ifs with h1 h2
  · norm_num
  · norm_num
  · constructor
    · refine le_min ?_ (by norm_num)
      have : (0 : ℚ) ≤ (count_sightings_since db lot ⟨dt.minutes - 24 * 60⟩ : ℚ) * 0.1 := by
        positivity
      linarith
    · exact le_trans (min_le_right _ _) (by norm_num)

theorem academic_calendar_of_mem (m d : ℕ) :
    0.35 ≤ academic_calendar_of m d ∧ academic_calendar_of m d ≤ 0.95 := by
  unfold academic_calendar_of
  split_ifs <;> norm_num

/-! ## Concrete fixtures used by witnesses and counterexamples -/

/-- A parking lot row. -/
def lotA : ParkingLot := ⟨1, "Hutchinson Parking Structure", "HUTCH"⟩

/-- Tuesday 2024-01-16T10:00:00Z. -/
def tJan16 : Instant := mkUTC 2024 1 16 10 0

/-- The previous Tuesday, 2024-01-09T10:00:00Z. -/
def tJan09 : Instant := mkUTC 2024 1 9 10 0

/-- Database holding `lotA` and no sightings at all. -/
def dbNoSightings : DB := ⟨[lotA], []⟩

/-- Database holding `lotA` and one sighting at that lot one hour before
`tJan16`. -/
def dbOneRecent : DB := ⟨[lotA], [⟨1, ⟨tJan16.minutes - 60⟩⟩]⟩

/-- Database holding `lotA` and one sighting at that lot on `tJan09` —
the same weekday as `tJan16`, seven days earlier. -/
def dbOneLastTuesday : DB := ⟨[lotA], [⟨1, tJan09⟩]⟩

/-! ## Claims -/

/-- C6: for every probability `p`, the risk level is LOW iff `p < 0.3`,
MEDIUM iff `0.3 ≤ p < 0.6`, HIGH iff `p ≥ 0.6`; in particular
`risk_level 0.29 = LOW`, `risk_level 0.3 = MEDIUM`,
`risk_level 0.59 = MEDIUM`, `risk_level 0.6 = HIGH`. -/
theorem risk_level_boundaries :
    (∀ p : ℚ,
      (get_risk_level p = "LOW" ↔ p < 0.3) ∧
      (get_risk_level p = "MEDIUM" ↔ 0.3 ≤ p ∧ p < 0.6) ∧
      (get_risk_level p = "HIGH" ↔ 0.6 ≤ p)) ∧
    get_risk_level 0.29 = "LOW" ∧
    get_risk_level 0.3 = "MEDIUM" ∧
    get_risk_level 0.59 = "MEDIUM" ∧
    get_risk_level 0.6 = "HIGH" := by
  refine ⟨fun p => ?_, by norm_num [get_risk_level], by norm_num [get_risk_level],
    by norm_num [get_risk_level], by norm_num [get_risk_level]⟩
  unfold get_risk_level
  split_ifs with h1 h2
  · exact ⟨iff_of_true rfl h1,
      iff_of_false (by decide) fun hc => absurd hc.1 (not_le.2 h1),
      iff_of_false (by decide) (not_le.2 (lt_trans h1 (by norm_num)))⟩
  · exact ⟨iff_of_false (by decide) h1,
      iff_of_true rfl ⟨not_lt.1 h1, h2⟩,
      iff_of_false (by decide) (not_le.2 h2)⟩
  · exact ⟨iff_of_false (by decide) h1,
      iff_of_false (by decide) fun hc => h2 hc.2,
      iff_of_true rfl (not_lt.1 h2)⟩

/-- C7: confidence equals
`min(0.4 + min(historical_count*0.02, 0.3) + min(recent_count*0.05, 0.2), 0.95)`,
is 0.4 when both counts are 0, is monotone non-decreasing in each count,
never exceeds 0.95, and in `predict` it is computed from the unfiltered
trailing-90-day and trailing-24-hour counts. -/
theorem confidence_formula_monotone_bounded (hc rc : ℕ) :
    calculate_confidence hc rc =
      min (0.4 + min ((hc : ℚ) * 0.02) 0.3 + min ((rc : ℚ) * 0.05) 0.2) 0.95 ∧
    calculate_confidence 0 0 = 0.4 ∧
    (∀ hc' rc', hc ≤ hc' → rc ≤ rc' →
      calculate_confidence hc rc ≤ calculate_confidence hc' rc') ∧
    calculate_confidence hc rc ≤ 0.95 ∧
    (∀ (db : DB) (lotId : ℤ) (t : Instant) (r : PredictionResponse),
      predict db lotId t = .ok r →
      r.confidence = round3 (calculate_confidence
        (count_sightings_since db lotId ⟨t.minutes - 90 * 1440⟩)
        (count_sightings_since db lotId ⟨t.minutes - 24 * 60⟩))) := by
  refine ⟨rfl, by norm_num [calculate_confidence], ?_, min_le_right _ _, ?_⟩
  · intro hc' rc' hh hr
    unfold calculate_confidence
    refine min_le_min (add_le_add (add_le_add le_rfl ?_) ?_) le_rfl
    · exact min_le_min (mul_le_mul_of_nonneg_right (by exact_mod_cast hh) (by norm_num)) le_rfl
    · exact min_le_min (mul_le_mul_of_nonneg_right (by exact_mod_cast hr) (by norm_num)) le_rfl
  · intro db lotId t r h
    rcases hfind : db.parking_lots.find? (fun l => l.id == lotId) with _ | lot
    · rw [predict, hfind] at h
      exact absurd h (by simp)
    · rw [predict_eq_of_found db lotId t lot hfind] at h
      simp only [Except.ok.injEq] at h
      subst h
      rfl

/-- C7 witness: concrete instantiation, discharging the monotonicity
hypotheses at `2 ≤ 5`, `3 ≤ 4` and the `predict` hypothesis on a
concrete database. -/
theorem confidence_formula_monotone_bounded_witness :
    calculate_confidence 2 3 ≤ calculate_confidence 5 4 :=
  (confidence_formula_monotone_bounded 2 3).2.2.1 5 4 (by decide) (by decide)

/-- C8: the time-of-day factor depends only on the hour (minutes/seconds
ignored) and follows the piecewise policy: 0.05 outside [6,22),
`0.2+(h-6)*0.15` on [6,8), 0.70 on [12,13), 0.85 on the rest of [8,17),
`0.6-(h-17)*0.11` on [17,22); it lies in [0,1], is ≤ 0.05 outside
[6,22), non-decreasing on [6,8) and non-increasing on [17,22). -/
theorem time_of_day_factor_piecewise :
    (∀ t t' : Instant, t.hour = t'.hour →
      calculate_time_of_day_factor t = calculate_time_of_day_factor t') ∧
    (∀ t : Instant, calculate_time_of_day_factor t = time_of_day_of_hour t.hour) ∧
    (∀ h : ℕ, h < 6 ∨ 22 ≤ h → time_of_day_of_hour h = 0.05) ∧
    (∀ h : ℕ, 6 ≤ h → h < 8 → time_of_day_of_hour h = 0.2 + ((h : ℚ) - 6) * 0.15) ∧
    (∀ h : ℕ, 12 ≤ h → h < 13 → time_of_day_of_hour h = 0.7) ∧
    (∀ h : ℕ, 8 ≤ h → h < 17 → ¬(12 ≤ h ∧ h < 13) → time_of_day_of_hour h = 0.85) ∧
    (∀ h : ℕ, 17 ≤ h → h < 22 → time_of_day_of_hour h = 0.6 - ((h : ℚ) - 17) * 0.11) ∧
    (∀ h : ℕ, 0 ≤ time_of_day_of_hour h ∧ time_of_day_of_hour h ≤ 1) ∧
    (∀ h : ℕ, h < 6 ∨ 22 ≤ h → time_of_day_of_hour h ≤ 0.05) ∧
    (∀ h h' : ℕ, 6 ≤ h → h ≤ h' → h' < 8 →
      time_of_day_of_hour h ≤ time_of_day_of_hour h') ∧
    (∀ h h' : ℕ, 17 ≤ h → h ≤ h' → h' < 22 →
      time_of_day_of_hour h' ≤ time_of_day_of_hour h) := by
  refine ⟨?_, fun _ => rfl, ?_, ?_, ?_, ?_, ?_, time_of_day_of_hour_mem, ?_, ?_, ?_⟩
  · intro t t' h
    unfold calculate_time_of_day_factor
    rw [h]
  · intro h hh
    unfold time_of_day_of_hour
    rw [if_pos hh]
  · intro h h6 h8
    unfold time_of_day_of_hour
    rw [if_neg (by omega), if_pos ⟨h6, h8⟩]
  · intro h h12 h13
    unfold time_of_day_of_hour
    rw [if_neg (by omega), if_neg (by omega), if_pos (by omega), if_pos ⟨h12, h13⟩]
  · intro h h8 h17 hlunch
    unfold time_of_day_of_hour
    rw [if_neg (by omega), if_neg (by omega), if_pos ⟨h8, h17⟩, if_neg hlunch]
  · intro h h17 h22
    unfold time_of_day_of_hour
    rw [if_neg (by omega), if_neg (by omega), if_neg (by omega)]
  · intro h hh
    unfold time_of_day_of_hour
    rw [if_pos hh]
  · intro h h' h6 hle h8
    have hh8 : h < 8 := lt_of_le_of_lt hle h8
    have h6' : 6 ≤ h' := le_trans h6 hle
    interval_cases h <;> interval_cases h' <;> norm_num [time_of_day_of_hour]
  · intro h h' h17 hle h22
    have hh22 : h < 22 := lt_of_le_of_lt hle h22
    have h17' : 17 ≤ h' := le_trans h17 hle
    interval_cases h <;> interval_cases h' <;> norm_num [time_of_day_of_hour]

/-- C8 witness: the piecewise equations and monotonicity at concrete
hours (7 in the ramp, 18 ≤ 20 in the decay). -/
theorem time_of_day_factor_piecewise_witness :
    time_of_day_of_hour 7 = 0.2 + ((7 : ℚ) - 6) * 0.15 ∧
    time_of_day_of_hour 20 ≤ time_of_day_of_hour 18 :=
  ⟨time_of_day_factor_piecewise.2.2.2.1 7 (by decide) (by decide),
   time_of_day_factor_piecewise.2.2.2.2.2.2.2.2.2.2 18 20 (by decide) (by decide) (by decide)⟩

/-- C4: the academic-calendar factor depends only on (month, day); it is
0.95 on the finals ranges (checked first), 0.75 on the quarter ranges,
0.35 otherwise; range endpoints are included; in particular 0.95 on
2024-12-10, 0.75 on 2024-10-15, 0.35 on 2024-07-15. -/
theorem academic_calendar_factor_ranges :
    (∀ t t' : Instant, t.month = t'.month → t.day = t'.day →
      calculate_academic_calendar_factor t = calculate_academic_calendar_factor t') ∧
    calculate_academic_calendar_factor (mkUTC 2024 12 10 0 0) = 0.95 ∧
    calculate_academic_calendar_factor (mkUTC 2024 10 15 0 0) = 0.75 ∧
    calculate_academic_calendar_factor (mkUTC 2024 7 15 0 0) = 0.35 ∧
    academic_calendar_of 12 7 = 0.95 ∧ academic_calendar_of 12 13 = 0.95 ∧
    academic_calendar_of 3 15 = 0.95 ∧ academic_calendar_of 3 21 = 0.95 ∧
    academic_calendar_of 6 7 = 0.95 ∧ academic_calendar_of 6 13 = 0.95 ∧
    academic_calendar_of 9 25 = 0.75 ∧ academic_calendar_of 1 6 = 0.75 ∧
    academic_calendar_of 3 31 = 0.75 ∧
    academic_calendar_of 12 6 = 0.75 ∧ academic_calendar_of 12 14 = 0.35 ∧
    academic_calendar_of 9 24 = 0.35 ∧ academic_calendar_of 6 14 = 0.35 := by
  refine ⟨?_, ?_, ?_, ?_, ?_, ?_, ?_, ?_, ?_, ?_, ?_, ?_, ?_, ?_, ?_, ?_, ?_⟩
  · intro t t' hm hd
    unfold calculate_academic_calendar_factor
    rw [hm, hd]
  all_goals with_unfolding_all decide

/-- C4 witness: two instants on 2024-12-10 with different clock times have
the same academic-calendar factor. -/
theorem academic_calendar_factor_ranges_witness :
    calculate_academic_calendar_factor (mkUTC 2024 12 10 9 30) =
      calculate_academic_calendar_factor (mkUTC 2024 12 10 16 45) :=
  academic_calendar_factor_ranges.1 _ _ (by decide) (by decide)

/-- C2: the historical-factor query compares PostgreSQL
`extract('dow', reported_at)` (0 = Sunday) against Python
`dt.weekday()` (0 = Monday), so a sighting on the SAME weekday as the
target is NOT counted: for target Tuesday 2024-01-16T10:00Z and one
sighting the previous Tuesday 2024-01-09T10:00Z (same weekday, inside
the 90-day window), the spec's same-weekday count is 1 (factor 0.365)
but the code's count is 0, so the code returns the no-data baseline
0.3. -/
theorem historical_factor_weekday_mismatch :
    tJan09.weekday = tJan16.weekday ∧
    tJan16.minutes - 90 * 1440 ≤ tJan09.minutes ∧
    count_sightings_90d_same_weekday dbOneLastTuesday 1 tJan16 = 1 ∧
    count_sightings_90d_dow dbOneLastTuesday 1 tJan16 = 0 ∧
    calculate_historical_factor dbOneLastTuesday 1 tJan16 = 0.3 ∧
    historical_of_count (count_sightings_90d_same_weekday dbOneLastTuesday 1 tJan16) = 0.365 ∧
    calculate_historical_factor dbOneLastTuesday 1 tJan16 ≠
      historical_of_count (count_sightings_90d_same_weekday dbOneLastTuesday 1 tJan16) := by
  refine ⟨by decide, by decide, by decide, by decide, ?_, ?_, ?_⟩
  all_goals with_unfolding_all decide

/-- C3: the recent-sightings factor returns exactly 0.95 whenever the
trailing-2-hour count is positive, regardless of the 24-hour count;
otherwise 0.4 when the trailing-24-hour count is 0 and
`min(0.5 + count*0.1, 0.85)` when it is positive. -/
theorem recent_sightings_factor_two_tier (db : DB) (lot : ℤ) (dt : Instant) :
    (0 < count_sightings_since db lot ⟨dt.minutes - 2 * 60⟩ →
      calculate_recent_sightings_factor db lot dt = 0.95) ∧
    (count_sightings_since db lot ⟨dt.minutes - 2 * 60⟩ = 0 →
      count_sightings_since db lot ⟨dt.minutes - 24 * 60⟩ = 0 →
      calculate_recent_sightings_factor db lot dt = 0.4) ∧
    (count_sightings_since db lot ⟨dt.minutes - 2 * 60⟩ = 0 →
      0 < count_sightings_since db lot ⟨dt.minutes - 24 * 60⟩ →
      calculate_recent_sightings_factor db lot dt =
        min (0.5 + (count_sightings_since db lot ⟨dt.minutes - 24 * 60⟩ : ℚ) * 0.1) 0.85) := by
  refine ⟨?_, ?_, ?_⟩
  · intro h
    simp only [calculate_recent_sightings_factor]
    rw [if_pos h]
  · intro h2 h24
    simp only [calculate_recent_sightings_factor]
    rw [if_neg (by omega), if_pos h24]
  · intro h2 h24
    simp only [calculate_recent_sightings_factor]
    rw [if_neg (by omega), if_neg (by omega)]

/-- C3 witness: one sighting an hour before the target makes the 2-hour
count positive and the factor exactly 0.95. -/
theorem recent_sightings_factor_two_tier_witness :
    calculate_recent_sightings_factor dbOneRecent 1 tJan16 = 0.95 :=
  (recent_sightings_factor_two_tier dbOneRecent 1 tJan16).1 (by decide)

/-- C10: every factor lies in [0,1] for all inputs, the weights sum to 1,
the pre-clamp weighted sum already lies in [0,1], and the clamp
`max 0 (min 1 p)` in `predict` never changes the computed probability. -/
theorem factors_bounded_clamp_identity (db : DB) (lot : ℤ) (dt : Instant) :
    (0 ≤ calculate_time_of_day_factor dt ∧ calculate_time_of_day_factor dt ≤ 1) ∧
    (0 ≤ calculate_day_of_week_factor dt ∧ calculate_day_of_week_factor dt ≤ 1) ∧
    (0 ≤ calculate_historical_factor db lot dt ∧ calculate_historical_factor db lot dt ≤ 1) ∧
    (0 ≤ calculate_recent_sightings_factor db lot dt ∧
      calculate_recent_sightings_factor db lot dt ≤ 1) ∧
    (0 ≤ calculate_academic_calendar_factor dt ∧ calculate_academic_calendar_factor dt ≤ 1) ∧
    WEIGHTS ("time_of_day") + WEIGHTS ("day_of_week") + WEIGHTS ("historical") +
      WEIGHTS ("recent_sightings") + WEIGHTS ("academic_calendar") = 1 ∧
    (0 ≤ calculate_time_of_day_factor dt * WEIGHTS ("time_of_day") +
        calculate_day_of_week_factor dt * WEIGHTS ("day_of_week") +
        calculate_historical_factor db lot dt * WEIGHTS ("historical") +
        calculate_recent_sightings_factor db lot dt * WEIGHTS ("recent_sightings") +
        calculate_academic_calendar_factor dt * WEIGHTS ("academic_calendar") ∧
      calculate_time_of_day_factor dt * WEIGHTS ("time_of_day") +
        calculate_day_of_week_factor dt * WEIGHTS ("day_of_week") +
        calculate_historical_factor db lot dt * WEIGHTS ("historical") +
        calculate_recent_sightings_factor db lot dt * WEIGHTS ("recent_sightings") +
        calculate_academic_calendar_factor dt * WEIGHTS ("academic_calendar") ≤ 1) ∧
    max 0 (min 1
      (calculate_time_of_day_factor dt * WEIGHTS ("time_of_day") +
       calculate_day_of_week_factor dt * WEIGHTS ("day_of_week") +
       calculate_historical_factor db lot dt * WEIGHTS ("historical") +
       calculate_recent_sightings_factor db lot dt * WEIGHTS ("recent_sightings") +
       calculate_academic_calendar_factor dt * WEIGHTS ("academic_calendar"))) =
      calculate_time_of_day_factor dt * WEIGHTS ("time_of_day") +
        calculate_day_of_week_factor dt * WEIGHTS ("day_of_week") +
        calculate_historical_factor db lot dt * WEIGHTS ("historical") +
        calculate_recent_sightings_factor db lot dt * WEIGHTS ("recent_sightings") +
        calculate_academic_calendar_factor dt * WEIGHTS ("academic_calendar") := by
  have h1 := time_of_day_of_hour_mem dt.hour
  have h2 := day_of_week_of_mem dt.weekday
  have h3 := historical_of_count_mem (count_sightings_90d_dow db lot dt)
  have h4 := recent_sightings_factor_mem db lot dt
  have h5 := academic_calendar_of_mem dt.month dt.day
  have e1 : calculate_time_of_day_factor dt = time_of_day_of_hour dt.hour := rfl
  have e2 : calculate_day_of_week_factor dt = day_of_week_of dt.weekday := rfl
  have e3 : calculate_historical_factor db lot dt =
      historical_of_count (count_sightings_90d_dow db lot dt) := rfl
  have e5 : calculate_academic_calendar_factor dt = academic_calendar_of dt.month dt.day := rfl
  rw [e1, e2, e3, e5, WEIGHTS_time_of_day, WEIGHTS_day_of_week, WEIGHTS_historical,
    WEIGHTS_recent_sightings, WEIGHTS_academic_calendar]
  obtain ⟨h1a, h1b⟩ := h1
  obtain ⟨h2a, h2b⟩ := h2
  obtain ⟨h3a, h3b⟩ := h3
  obtain ⟨h4a, h4b⟩ := h4
  obtain ⟨h5a, h5b⟩ := h5
  have hsum0 : (0 : ℚ) ≤ time_of_day_of_hour dt.hour * 0.25 +
      day_of_week_of dt.weekday * 0.20 +
      historical_of_count (count_sightings_90d_dow db lot dt) * 0.20 +
      calculate_recent_sightings_factor db lot dt * 0.20 +
      academic_calendar_of dt.month dt.day * 0.15 := by linarith
  have hsum1 : time_of_day_of_hour dt.hour * 0.25 +
      day_of_week_of dt.weekday * 0.20 +
      historical_of_count (count_sightings_90d_dow db lot dt) * 0.20 +
      calculate_recent_sightings_factor db lot dt * 0.20 +
      academic_calendar_of dt.month dt.day * 0.15 ≤ 1 := by linarith
  refine ⟨⟨h1a, h1b⟩, ⟨h2a, h2b⟩, ⟨by linarith, by linarith⟩, ⟨by linarith, by linarith⟩,
    ⟨by linarith, by linarith⟩, by norm_num, ⟨hsum0, hsum1⟩, ?_⟩
  rw [min_eq_right hsum1, max_eq_right hsum0]

/-- C1: the probability emitted by `predict` is the weighted sum of the
five full-precision factors with the fixed weights, clamped to [0,1];
rounding to 3 decimals is applied only to the emitted probability,
confidence and factor fields, never before combination. -/
theorem predict_combines_full_precision_factors (db : DB) (lotId : ℤ) (t : Instant)
    (r : PredictionResponse) (h : predict db lotId t = .ok r) :
    r.probability = round3 (max 0 (min 1
      (calculate_time_of_day_factor t * 0.25 +
       calculate_day_of_week_factor t * 0.20 +
       calculate_historical_factor db lotId t * 0.20 +
       calculate_recent_sightings_factor db lotId t * 0.20 +
       calculate_academic_calendar_factor t * 0.15))) ∧
    r.factors.time_of_day_factor = round3 (calculate_time_of_day_factor t) ∧
    r.factors.day_of_week_factor = round3 (calculate_day_of_week_factor t) ∧
    r.factors.historical_factor = round3 (calculate_historical_factor db lotId t) ∧
    r.factors.recent_sightings_factor = round3 (calculate_recent_sightings_factor db lotId t) ∧
    r.factors.academic_calendar_factor = round3 (calculate_academic_calendar_factor t) ∧
    r.confidence = round3 (calculate_confidence
      (count_sightings_since db lotId ⟨t.minutes - 90 * 1440⟩)
      (count_sightings_since db lotId ⟨t.minutes - 24 * 60⟩)) := by
  rcases hfind : db.parking_lots.find? (fun l => l.id == lotId) with _ | lot
  · rw [predict, hfind] at h
    exact absurd h (by simp)
  · rw [predict_eq_of_found db lotId t lot hfind] at h
    simp only [Except.ok.injEq] at h
    subst h
    refine ⟨?_, rfl, rfl, rfl, rfl, rfl, rfl⟩
    rw [WEIGHTS_time_of_day, WEIGHTS_day_of_week, WEIGHTS_historical,
      WEIGHTS_recent_sightings, WEIGHTS_academic_calendar]

/-- C1 witness: on a concrete database `predict` succeeds and the emitted
probability is the rounded clamped weighted sum. -/
theorem predict_combines_full_precision_factors_witness :
    ∃ r : PredictionResponse, predict dbNoSightings 1 tJan16 = .ok r ∧
      r.probability = round3 (max 0 (min 1
        (calculate_time_of_day_factor tJan16 * 0.25 +
         calculate_day_of_week_factor tJan16 * 0.20 +
         calculate_historical_factor dbNoSightings 1 tJan16 * 0.20 +
         calculate_recent_sightings_factor dbNoSightings 1 tJan16 * 0.20 +
         calculate_academic_calendar_factor tJan16 * 0.15))) :=
  ⟨_, predict_eq_of_found dbNoSightings 1 tJan16 lotA (by decide),
    (predict_combines_full_precision_factors dbNoSightings 1 tJan16 _
      (predict_eq_of_found dbNoSightings 1 tJan16 lotA (by decide))).1⟩

/-- C9: a lot id that resolves to no parking lot makes `predict` fail with
the not-found error, returning no partial result, and the API handler
maps it to a 404 response. -/
theorem predict_unknown_lot_not_found (db : DB) (lotId : ℤ) (t : Instant)
    (h : ∀ l ∈ db.parking_lots, l.id ≠ lotId) :
    predict db lotId t = .error ("Parking lot " ++ toString lotId ++ " not found") ∧
    predict_for_time db lotId t =
      .error (404, "Parking lot " ++ toString lotId ++ " not found") := by
  have hf : db.parking_lots.find? (fun l => l.id == lotId) = none := by
    rw [List.find?_eq_none]
    intro l hl
    simpa using h l hl
  constructor
  · rw [predict, hf]
  · rw [predict_for_time, predict, hf]

/-- C9 witness: lot id 2 is not in the concrete database; `predict` and
the handler fail as stated. -/
theorem predict_unknown_lot_not_found_witness :
    predict dbNoSightings 2 tJan16 =
      .error ("Parking lot " ++ toString (2 : ℤ) ++ " not found") ∧
    predict_for_time dbNoSightings 2 tJan16 =
      .error (404, "Parking lot " ++ toString (2 : ℤ) ++ " not found") :=
  predict_unknown_lot_not_found dbNoSightings 2 tJan16 (by decide)

/-- C5 counterexample: 2024-01-16 is NOT outside every academic range — it
lies inside the winter-quarter range (Jan 6 – Mar 21), so the
academic-calendar factor at that timestamp is 0.75, not the
outside-all-ranges value 0.35. -/
theorem jan16_inside_winter_quarter :
    in_range 1 16 winter_start winter_end = true ∧
    calculate_academic_calendar_factor tJan16 = 0.75 ∧
    calculate_academic_calendar_factor tJan16 ≠ 0.35 := by
  refine ⟨by decide, ?_, ?_⟩
  all_goals with_unfolding_all decide

/-- C5 (amended): for a lot with zero sighting history and timestamp
Tuesday 2024-01-16T10:00:00Z — a date inside the winter-quarter range, so
the academic-calendar factor is 0.75 — `predict` deterministically
returns probability 0.645 (= 0.85·0.25 + 0.9·0.20 + 0.3·0.20 + 0.4·0.20
+ 0.75·0.15), risk HIGH, confidence 0.4, and two calls on the same
inputs give the identical output. -/
theorem predict_zero_history_jan16 (db : DB) (lotId : ℤ) (lot : ParkingLot)
    (hfind : db.parking_lots.find? (fun l => l.id == lotId) = some lot)
    (hnone : ∀ s ∈ db.taps_sightings, s.parking_lot_id ≠ lotId) :
    predict db lotId tJan16 = .ok
      { parking_lot_id := lot.id
        parking_lot_name := lot.name
        parking_lot_code := lot.code
        probability := 0.645
        risk_level := "HIGH"
        predicted_for := tJan16
        factors :=
          { time_of_day_factor := 0.85
            day_of_week_factor := 0.9
            historical_factor := 0.3
            recent_sightings_factor := 0.4
            academic_calendar_factor := 0.75
            weather_factor := none }
        confidence := 0.4 } ∧
    predict db lotId tJan16 = predict db lotId tJan16 := by
  have hc90 := count_sightings_since_eq_zero db lotId ⟨tJan16.minutes - 90 * 1440⟩ hnone
  have hc24 := count_sightings_since_eq_zero db lotId ⟨tJan16.minutes - 24 * 60⟩ hnone
  have hc2 := count_sightings_since_eq_zero db lotId ⟨tJan16.minutes - 2 * 60⟩ hnone
  have hcd := count_sightings_90d_dow_eq_zero db lotId tJan16 hnone
  have htf : calculate_time_of_day_factor tJan16 = 0.85 := by with_unfolding_all decide
  have hdf : calculate_day_of_week_factor tJan16 = 0.9 := by with_unfolding_all decide
  have hcf : calculate_academic_calendar_factor tJan16 = 0.75 := by with_unfolding_all decide
  have hhf : calculate_historical_factor db lotId tJan16 = 0.3 := by
    unfold calculate_historical_factor
    rw [hcd]
    with_unfolding_all decide
  have hrf : calculate_recent_sightings_factor db lotId tJan16 = 0.4 := by
    simp only [calculate_recent_sightings_factor]
    rw [if_neg (by omega), if_pos hc24]
  refine ⟨?_, rfl⟩
  rw [predict_eq_of_found db lotId tJan16 lot hfind, htf, hdf, hcf, hhf, hrf, hc90, hc24]
  simp only [Except.ok.injEq, PredictionResponse.mk.injEq, PredictionFactors.mk.injEq,
    WEIGHTS_time_of_day, WEIGHTS_day_of_week, WEIGHTS_historical,
    WEIGHTS_recent_sightings, WEIGHTS_academic_calendar]
  norm_num [round3, roundHalfEvenInt, get_risk_level, calculate_confidence]

/-- C5 witness: the amended claim at the concrete database holding the lot
and no sightings. -/
theorem predict_zero_history_jan16_witness :
    predict dbNoSightings 1 tJan16 = .ok
      { parking_lot_id := lotA.id
        parking_lot_name := lotA.name
        parking_lot_code := lotA.code
        probability := 0.645
        risk_level := "HIGH"
        predicted_for := tJan16
        factors :=
          { time_of_day_factor := 0.85
            day_of_week_factor := 0.9
            historical_factor := 0.3
            recent_sightings_factor := 0.4
            academic_calendar_factor := 0.75
            weather_factor := none }
        confidence := 0.4 } :=
  (predict_zero_history_jan16 dbNoSightings 1 lotA (by decide) (by decide)).1
